import Mathlib

/-!
Verification of the evaluation-and-composition core of the
modern-talking argument/key-point matching system.

The embedding mirrors, definition by definition:
  - modern_talking/model/__init__.py      (data model)
  - modern_talking/evaluation/__init__.py (Metric.get_all_ids,
                                           Metric.get_discrete_labels)
  - modern_talking/matchers/__init__.py   (LabelPolicy, UntrainedMatcher)
  - modern_talking/matchers/combine.py    (Cascade)
  - modern_talking/matchers/bilstm.py     (prepare_labelled_data, slug)

Python dictionaries are embedded as association lists with a
first-match lookup; Python sets built by successive updates are
embedded as deduplicated lists.  Float labels are embedded as
rationals.  A Python expression that can raise KeyError is embedded
as an Option-valued function, where none stands for the raised error.
-/

/-- Pair of argument id and key point id (ArgumentKeyPointIdPair). -/
abbrev PairId := String × String

/-- Match labels: dictionary from id pairs to labels (model.Labels).
Embedded as an association list; well-formed dictionaries have
no duplicate keys. -/
abbrev Labels := List (PairId × Rat)

/-- First-match association lookup, the embedding of Python dict
subscript access: some value when the key is present, none for the
KeyError case. -/
def lookupLabel (ls : Labels) (pr : PairId) : Option Rat :=
  match ls with
  | [] => none
  | (k, v) :: rest => if k = pr then some v else lookupLabel rest pr

/-- The key set of a labels dictionary (dict.keys). -/
def labelKeys (ls : Labels) : List PairId :=
  ls.map Prod.fst

/-- Single argument with a stance against its topic (model.Argument).
Stance is 1 (pro) or -1 (contra), embedded as an integer. -/
structure Argument where
  id : String
  text : String
  topic : String
  stance : Int
deriving DecidableEq

/-- Single key point with a stance against its topic (model.KeyPoint). -/
structure KeyPoint where
  id : String
  text : String
  topic : String
  stance : Int
deriving DecidableEq

/-- Dataset with arguments and key points (model.Dataset). -/
structure Dataset where
  arguments : List Argument
  key_points : List KeyPoint

/-- Annotated dataset with match labels (model.LabelledDataset). -/
structure LabelledDataset extends Dataset where
  labels : Labels

/-- Filesystem path, embedded as the list of its components;
the / operator on paths appends a component. -/
abbrev FsPath := List String

/-- Evaluation mode for metrics (evaluation.EvaluationMode). -/
inductive EvaluationMode where
  | strict
  | relaxed
deriving DecidableEq

/-- Union of all id pairs appearing as keys in either mapping
(Metric.get_all_ids): a set built by updating with the keys of
predicted_labels and then with the keys of ground_truth_labels. -/
def Metric.get_all_ids (predicted_labels ground_truth_labels : Labels) :
    List PairId :=
  (labelKeys predicted_labels ++ labelKeys ground_truth_labels).dedup

/-- The default label substituted for ids missing from the ground
truth: 1 if mode == EvaluationMode.relaxed else 0. -/
def missingLabel (mode : EvaluationMode) : Rat :=
  if mode = EvaluationMode.relaxed then 1 else 0

/-- One entry of the y_true list of Metric.get_discrete_labels:
1 if ground_truth_labels.get(id, missing) >= 0.5 else 0. -/
def yTrueEntry (ground_truth_labels : Labels) (mode : EvaluationMode)
    (pr : PairId) : Nat :=
  if ((lookupLabel ground_truth_labels pr).getD (missingLabel mode))
      ≥ (0.5 : Rat) then 1 else 0

/-- Evaluate f on every list element, propagating a raised error
(none) from any element to the whole computation. -/
def collectSome {α β : Type} (f : α → Option β) : List α → Option (List β)
  | [] => some []
  | x :: rest =>
    match f x with
    | none => none
    | some v => (collectSome f rest).map (fun l => v :: l)

/-- One entry of the y_pred list of Metric.get_discrete_labels:
1 if predicted_labels[id] >= 0.5 else 0, raising (none) when the id
is absent from predicted_labels. -/
def yPredEntry (predicted_labels : Labels) (pr : PairId) : Option Nat :=
  match lookupLabel predicted_labels pr with
  | none => none
  | some v => some (if v ≥ (0.5 : Rat) then 1 else 0)

/-- True and predicted discrete labels over the key union
(Metric.get_discrete_labels).  Returns none when some id of the
union is absent from predicted_labels (the KeyError case). -/
def Metric.get_discrete_labels (predicted_labels ground_truth_labels : Labels)
    (mode : EvaluationMode) : Option (List Nat × List Nat) :=
  let ids := Metric.get_all_ids predicted_labels ground_truth_labels
  let y_true := ids.map (yTrueEntry ground_truth_labels mode)
  match collectSome (yPredEntry predicted_labels) ids with
  | none => none
  | some y_pred => some (y_true, y_pred)

section CollectSomeLemmas

variable {α β : Type}

theorem collectSome_eq_map {f : α → Option β} {g : α → β} :
    ∀ {l : List α}, (∀ x ∈ l, f x = some (g x)) →
      collectSome f l = some (l.map g) := by
  intro l
  induction l with
  | nil => intro _; rfl
  | cons x rest ih =>
    intro h
    have hx : f x = some (g x) := h x (List.mem_cons_self x rest)
    have hrest := ih (fun y hy => h y (List.mem_cons_of_mem x hy))
    simp [collectSome, hx, hrest]

theorem collectSome_eq_none {f : α → Option β} {x : α} :
    ∀ {l : List α}, x ∈ l → f x = none → collectSome f l = none := by
  intro l
  induction l with
  | nil => intro h; exact absurd h (List.not_mem_nil x)
  | cons y rest ih =>
    intro hmem hx
    rcases List.mem_cons.mp hmem with heq | hmem
    · subst heq; simp [collectSome, hx]
    · cases hy : f y with
      | none => simp [collectSome, hy]
      | some v => simp [collectSome, hy, ih hmem hx]

end CollectSomeLemmas

theorem lookupLabel_eq_none_iff {ls : Labels} {pr : PairId} :
    lookupLabel ls pr = none ↔ pr ∉ labelKeys ls := by
  induction ls with
  | nil => simp [lookupLabel, labelKeys]
  | cons kv rest ih =>
    obtain ⟨k, v⟩ := kv
    by_cases hk : k = pr
    · subst hk; simp [lookupLabel, labelKeys]
    · simp [lookupLabel, labelKeys, hk, Ne.symm hk] at ih ⊢
      exact ih

theorem mem_labelKeys_of_lookup {ls : Labels} {pr : PairId} {v : Rat}
    (h : lookupLabel ls pr = some v) : pr ∈ labelKeys ls := by
  by_contra hmem
  rw [← lookupLabel_eq_none_iff] at hmem
  rw [hmem] at h
  exact Option.noConfusion h

/-- A sub-matcher as the Cascade sees it: its slug, its load_model
method (reading the filesystem through an abstract existence oracle
is left to the Cascade; the sub-load itself returns a success flag),
and its predict method producing a labels dictionary. -/
structure SubMatcher where
  slug : String
  load_model : FsPath → Bool
  predict : Dataset → Labels

/-- Combination of two matchers with a threshold
(matchers.combine.Cascade). -/
structure Cascade where
  matcher_a : SubMatcher
  matcher_b : SubMatcher
  threshold : Rat

/-- Cascade.slug: the f-string
cascade-\x7bthreshold\x7d-\x7bmatcher_a.slug\x7d-\x7bmatcher_b.slug\x7d.
Python float-to-string formatting is runtime behavior outside the
repository, so it enters as the parameter floatRepr; the theorems
only constrain its value at the points where Python documents it
(repr of the float 0.5 is the string 0.5). -/
def Cascade.slug (c : Cascade) (floatRepr : Rat → String) : String :=
  "cascade" ++ "-" ++ floatRepr c.threshold
    ++ "-" ++ c.matcher_a.slug
    ++ "-" ++ c.matcher_b.slug

/-- Cascade.load_model: path_a and path_b are the sub-slug
subdirectories of path; if either does not exist the result is
False, otherwise it is the conjunction of both sub-loads.
The filesystem existence check enters as the oracle pathExists. -/
def Cascade.load_model (c : Cascade) (pathExists : FsPath → Bool)
    (path : FsPath) : Bool :=
  let path_a := path ++ [c.matcher_a.slug]
  let path_b := path ++ [c.matcher_b.slug]
  if !(pathExists path_a) || !(pathExists path_b) then false
  else c.matcher_a.load_model path_a && c.matcher_b.load_model path_b

/-- Cascade.combined_prediction: label_a = labels_a[arg_kp] (KeyError
when absent, embedded as none); if label_a >= threshold return it,
otherwise return labels_b[arg_kp] (again a possible KeyError). -/
def Cascade.combined_prediction (c : Cascade) (arg_kp : PairId)
    (labels_a labels_b : Labels) : Option Rat :=
  match lookupLabel labels_a arg_kp with
  | none => none
  | some label_a =>
    if label_a ≥ c.threshold then some label_a
    else lookupLabel labels_b arg_kp

/-- The eligible (argument, key point) object pairs of a dataset: the
comprehension over arguments and key points filtered by equal topic
and equal stance, shared by Cascade.predict and the data-preparation
helpers of the learned matchers. -/
def eligibleArgKpPairs (args : List Argument) (kps : List KeyPoint) :
    List (Argument × KeyPoint) :=
  args.bind (fun arg =>
    (kps.filter (fun kp =>
      arg.topic == kp.topic && arg.stance == kp.stance)).map
      (fun kp => (arg, kp)))

/-- The eligible id pairs of a dataset, in comprehension order. -/
def eligiblePairs (d : Dataset) : List PairId :=
  (eligibleArgKpPairs d.arguments d.key_points).map
    (fun p => (p.1.id, p.2.id))

/-- Cascade.predict: labels_a and labels_b are both sub-predictions
over data; the result is the dictionary keyed by the eligible id
pairs with combined_prediction values.  A KeyError inside the
comprehension (none from combined_prediction) aborts the whole
dictionary, embedded as none. -/
def Cascade.predict (c : Cascade) (data : Dataset) : Option Labels :=
  let labels_a := c.matcher_a.predict data
  let labels_b := c.matcher_b.predict data
  collectSome
    (fun pr => (c.combined_prediction pr labels_a labels_b).map
      (fun v => (pr, v)))
    (eligiblePairs data)

/-- Policy for labels of eligible pairs missing from the training
labels (matchers.LabelPolicy). -/
inductive LabelPolicy where
  | skip
  | strict
  | relaxed
deriving DecidableEq

/-- UntrainedMatcher.load_model: nothing to load, the state is kept
and the result is True. -/
def UntrainedMatcher.load_model {σ : Type} (s : σ) (path : FsPath) :
    σ × Bool :=
  (s, true)

/-- UntrainedMatcher.save_model: nothing to save, the state is kept. -/
def UntrainedMatcher.save_model {σ : Type} (s : σ) (path : FsPath) : σ :=
  s

/-- UntrainedMatcher.train: nothing to train, the state is kept. -/
def UntrainedMatcher.train {σ : Type} (s : σ)
    (train_data dev_data : LabelledDataset) (cache_path : FsPath) : σ :=
  s

/-- The pair list of bilstm.prepare_labelled_data: the eligible
pairs, additionally filtered under the skip policy to those whose id
pair is a key of the labels dictionary. -/
def labelled_pairs (d : LabelledDataset) (label_policy : LabelPolicy) :
    List (Argument × KeyPoint) :=
  let pairs := eligibleArgKpPairs d.arguments d.key_points
  if label_policy = LabelPolicy.skip then
    pairs.filter (fun p => (lookupLabel d.labels (p.1.id, p.2.id)).isSome)
  else pairs

/-- The augmenter of bilstm.prepare_labelled_data: a SynonymAug
instance when augment >= 2, otherwise None.  The external nlpaug
augmenter itself enters as the parameter synonymAug, mapping a text
and the augmentation count n to the list of augmented variants. -/
def mkAugmenter (synonymAug : String → Nat → List String) (augment : Nat) :
    Option (String → List String) :=
  if augment ≥ 2 then some (fun t => synonymAug t augment) else none

/-- The zipped text rows one pair contributes to the training set:
the original argument and key point texts followed by the zipped
augmented variants. -/
def pairTextRows (augmenter : Option (String → List String))
    (arg : Argument) (kp : KeyPoint) : List (String × String) :=
  let current_arg_texts := arg.text ::
    (match augmenter with | none => [] | some f => f arg.text)
  let current_kp_texts := kp.text ::
    (match augmenter with | none => [] | some f => f kp.text)
  current_arg_texts.zip current_kp_texts

/-- The labels one pair contributes to the training set, one per text
row: when the id pair is absent from the labels dictionary, 0 under
strict and 1 under relaxed (and nothing under skip, whose missing
pairs were filtered out); when present, the stored label. -/
def rowLabels (labels : Labels) (label_policy : LabelPolicy)
    (arg : Argument) (kp : KeyPoint) (n : Nat) : List Rat :=
  match lookupLabel labels (arg.id, kp.id) with
  | none =>
    match label_policy with
    | LabelPolicy.strict => List.replicate n 0
    | LabelPolicy.relaxed => List.replicate n 1
    | LabelPolicy.skip => []
  | some v => List.replicate n v

/-- bilstm.prepare_labelled_data, returning the accumulated
argument texts, key point texts and labels of the training set. -/
def prepare_labelled_data (synonymAug : String → Nat → List String)
    (d : LabelledDataset) (augment : Nat) (label_policy : LabelPolicy) :
    List String × List String × List Rat :=
  let pairs := labelled_pairs d label_policy
  let augmenter := mkAugmenter synonymAug augment
  (pairs.bind (fun p => (pairTextRows augmenter p.1 p.2).map Prod.fst),
   pairs.bind (fun p => (pairTextRows augmenter p.1 p.2).map Prod.snd),
   pairs.bind (fun p =>
     rowLabels d.labels label_policy p.1 p.2
       (pairTextRows augmenter p.1 p.2).length))

/-- The filesystem-safe slug alphabet: lowercase ASCII letters,
digits and dashes. -/
def isSlugChar (ch : Char) : Bool :=
  ch.isLower || ch.isDigit || ch == '-'

/-- Whether a slug satisfies the documented contract of containing
only lowercase letters, numbers and dashes. -/
def isSlugOk (s : String) : Bool :=
  s.toList.all isSlugChar

/-- C4: Metric.get_all_ids is the set union of the key sets of the
predicted and ground-truth mappings, and for mappings sharing no
keys its size is the sum of the mapping sizes. -/
theorem get_all_ids_is_union (p g : Labels) :
    (∀ pr : PairId,
      pr ∈ Metric.get_all_ids p g ↔ pr ∈ labelKeys p ∨ pr ∈ labelKeys g)
    ∧ ((labelKeys p).Nodup → (labelKeys g).Nodup →
        (∀ pr ∈ labelKeys p, pr ∉ labelKeys g) →
        (Metric.get_all_ids p g).length = p.length + g.length) := by
  constructor
  · intro pr
    simp [Metric.get_all_ids, List.mem_dedup, List.mem_append]
  · intro hp hg hdisj
    have hnd : (labelKeys p ++ labelKeys g).Nodup := by
      rw [List.nodup_append]
      exact ⟨hp, hg, fun a ha hb => (hdisj a ha) hb⟩
    rw [Metric.get_all_ids, List.dedup_eq_self.mpr hnd, List.length_append]
    simp [labelKeys]

/-- Witness for C4 at concrete disjoint mappings. -/
theorem get_all_ids_is_union_witness :
    (Metric.get_all_ids [(("a1", "k1"), (0.9 : Rat))]
        [(("a2", "k2"), (1 : Rat))]).length = 1 + 1 :=
  (get_all_ids_is_union [(("a1", "k1"), (0.9 : Rat))]
      [(("a2", "k2"), (1 : Rat))]).2
    (by decide) (by decide) (by decide)

/-- C1: the y_true component of Metric.get_discrete_labels is derived
over the key union by discretizing the ground-truth value at 0.5 when
present and substituting the mode default (strict 0, relaxed 1) when
absent; on the concrete scenario P = ((a1,k1) 0.9, (a1,k2) 0.3),
G = ((a1,k1) 1.0) the union has the two ids (a1,k2), (a1,k1) and the
discrete labels, in that id order, are y_true (0, 1), y_pred (0, 1)
under strict and y_true (1, 1), y_pred (0, 1) under relaxed. -/
theorem get_discrete_labels_y_true_spec (p g : Labels)
    (mode : EvaluationMode) :
    (∀ yt yp, Metric.get_discrete_labels p g mode = some (yt, yp) →
      yt = (Metric.get_all_ids p g).map (yTrueEntry g mode))
    ∧ (∀ pr v, lookupLabel g pr = some v →
        yTrueEntry g mode pr = if v ≥ (0.5 : Rat) then 1 else 0)
    ∧ (∀ pr, lookupLabel g pr = none →
        yTrueEntry g mode pr =
          match mode with
          | EvaluationMode.strict => 0
          | EvaluationMode.relaxed => 1)
    ∧ (Metric.get_all_ids
          [(("a1", "k1"), (0.9 : Rat)), (("a1", "k2"), (0.3 : Rat))]
          [(("a1", "k1"), (1 : Rat))] = [("a1", "k2"), ("a1", "k1")]
        ∧ Metric.get_discrete_labels
            [(("a1", "k1"), (0.9 : Rat)), (("a1", "k2"), (0.3 : Rat))]
            [(("a1", "k1"), (1 : Rat))] EvaluationMode.strict
            = some ([0, 1], [0, 1])
        ∧ Metric.get_discrete_labels
            [(("a1", "k1"), (0.9 : Rat)), (("a1", "k2"), (0.3 : Rat))]
            [(("a1", "k1"), (1 : Rat))] EvaluationMode.relaxed
            = some ([1, 1], [0, 1])) := by
  have hne : ¬(("k1" : String) = "k2") := by decide
  have hsr : ¬(EvaluationMode.strict = EvaluationMode.relaxed) := by decide
  have hids : Metric.get_all_ids
      [(("a1", "k1"), (0.9 : Rat)), (("a1", "k2"), (0.3 : Rat))]
      [(("a1", "k1"), (1 : Rat))] = [("a1", "k2"), ("a1", "k1")] := by
    rfl
  refine ⟨?_, ?_, ?_, hids, ?_, ?_⟩
  · intro yt yp h
    simp only [Metric.get_discrete_labels] at h
    split at h
    · exact Option.noConfusion h
    · simp only [Option.some.injEq, Prod.mk.injEq] at h
      exact h.1.symm
  · intro pr v h
    simp [yTrueEntry, h]
  · intro pr h
    cases mode <;> simp [yTrueEntry, h, missingLabel] <;> norm_num
  · have hids2 : Metric.get_all_ids
        [(("a1", "k1"), (9 / 10 : Rat)), (("a1", "k2"), (3 / 10 : Rat))]
        [(("a1", "k1"), (1 : Rat))] = [("a1", "k2"), ("a1", "k1")] := by
      rfl
    norm_num [Metric.get_discrete_labels, hids2, collectSome, yPredEntry,
      yTrueEntry, lookupLabel, missingLabel, hne, hsr]
  · have hids2 : Metric.get_all_ids
        [(("a1", "k1"), (9 / 10 : Rat)), (("a1", "k2"), (3 / 10 : Rat))]
        [(("a1", "k1"), (1 : Rat))] = [("a1", "k2"), ("a1", "k1")] := by
      rfl
    norm_num [Metric.get_discrete_labels, hids2, collectSome, yPredEntry,
      yTrueEntry, lookupLabel, missingLabel, hne, hsr]

/-- Witness for C1 at a concrete annotated and a concrete missing id. -/
theorem get_discrete_labels_y_true_spec_witness :
    (yTrueEntry [(("a1", "k1"), (1 : Rat))] EvaluationMode.strict
        ("a1", "k1") = if (1 : Rat) ≥ (0.5 : Rat) then 1 else 0)
    ∧ (yTrueEntry [(("a1", "k1"), (1 : Rat))] EvaluationMode.strict
        ("a1", "k2") =
        match EvaluationMode.strict with
        | EvaluationMode.strict => 0
        | EvaluationMode.relaxed => 1) :=
  ⟨(get_discrete_labels_y_true_spec [] [(("a1", "k1"), (1 : Rat))]
      EvaluationMode.strict).2.1 ("a1", "k1") 1 rfl,
   (get_discrete_labels_y_true_spec [] [(("a1", "k1"), (1 : Rat))]
      EvaluationMode.strict).2.2.1 ("a1", "k2") rfl⟩

/-- C2: the y_pred component of Metric.get_discrete_labels
discretizes the predicted value at 0.5 for every id of the key
union, and any id of the union absent from predicted_labels makes
the whole call fail with a missing-key error. -/
theorem get_discrete_labels_y_pred_spec (p g : Labels)
    (mode : EvaluationMode) :
    ((∀ pr ∈ Metric.get_all_ids p g, (lookupLabel p pr).isSome) →
      Metric.get_discrete_labels p g mode =
        some ((Metric.get_all_ids p g).map (yTrueEntry g mode),
          (Metric.get_all_ids p g).map (fun pr =>
            if (lookupLabel p pr).getD 0 ≥ (0.5 : Rat) then 1 else 0)))
    ∧ (∀ pr ∈ Metric.get_all_ids p g, lookupLabel p pr = none →
        Metric.get_discrete_labels p g mode = none) := by
  constructor
  · intro h
    have hcoll : collectSome (yPredEntry p) (Metric.get_all_ids p g)
        = some ((Metric.get_all_ids p g).map (fun pr =>
            if (lookupLabel p pr).getD 0 ≥ (0.5 : Rat) then 1 else 0)) := by
      apply collectSome_eq_map
      intro pr hpr
      obtain ⟨v, hv⟩ := Option.isSome_iff_exists.mp (h pr hpr)
      simp [yPredEntry, hv]
    simp only [Metric.get_discrete_labels, hcoll]
  · intro pr hpr hnone
    have hcoll : collectSome (yPredEntry p) (Metric.get_all_ids p g)
        = none := by
      apply collectSome_eq_none hpr
      simp [yPredEntry, hnone]
    simp only [Metric.get_discrete_labels, hcoll]

/-- Witness for C2: a fully predicted union succeeds, an id missing
from the predictions makes the call fail. -/
theorem get_discrete_labels_y_pred_spec_witness :
    Metric.get_discrete_labels [(("a1", "k1"), (0.9 : Rat))] []
        EvaluationMode.strict =
      some ((Metric.get_all_ids [(("a1", "k1"), (0.9 : Rat))] []).map
          (yTrueEntry [] EvaluationMode.strict),
        (Metric.get_all_ids [(("a1", "k1"), (0.9 : Rat))] []).map (fun pr =>
          if (lookupLabel [(("a1", "k1"), (0.9 : Rat))] pr).getD 0
              ≥ (0.5 : Rat) then 1 else 0))
    ∧ Metric.get_discrete_labels [] [(("a1", "k1"), (1 : Rat))]
        EvaluationMode.strict = none :=
  ⟨(get_discrete_labels_y_pred_spec [(("a1", "k1"), (0.9 : Rat))] []
      EvaluationMode.strict).1 (by intro pr hpr; simp_all [Metric.get_all_ids,
        labelKeys, lookupLabel]),
   (get_discrete_labels_y_pred_spec [] [(("a1", "k1"), (1 : Rat))]
      EvaluationMode.strict).2 ("a1", "k1") (by decide) rfl⟩

/-- Counterexample to C6 as stated: the id (a1, k1) is present in
the ground truth G with value 1 and absent from the predictions P,
yet the y_true entry derived for it under strict mode is 1, not the
claimed 0 (the mode default applies only to ids missing from the
ground truth, not to ids missing from the predictions). -/
theorem y_true_missing_pred_counterexample :
    lookupLabel [(("a1", "k1"), (1 : Rat))] ("a1", "k1") = some 1
    ∧ lookupLabel [(("a1", "k2"), (0.9 : Rat))] ("a1", "k1") = none
    ∧ yTrueEntry [(("a1", "k1"), (1 : Rat))] EvaluationMode.strict
        ("a1", "k1") = 1 := by
  refine ⟨rfl, rfl, ?_⟩
  norm_num [yTrueEntry, lookupLabel, missingLabel]

/-- C6 amended: for ids present in the ground truth G but absent
from the predictions P, the y_true entry Metric.get_discrete_labels
derives is the discretization of the stored ground-truth value,
identically under strict and relaxed mode; the mode-dependent
default never applies to such ids, and the full call fails with the
missing-key error since the id lacks a prediction. -/
theorem y_true_annotated_mode_independent (p g : Labels)
    (mode : EvaluationMode) (pr : PairId) (v : Rat)
    (hg : lookupLabel g pr = some v) (hp : lookupLabel p pr = none) :
    yTrueEntry g mode pr = (if v ≥ (0.5 : Rat) then 1 else 0)
    ∧ yTrueEntry g EvaluationMode.strict pr
        = yTrueEntry g EvaluationMode.relaxed pr
    ∧ Metric.get_discrete_labels p g mode = none := by
  refine ⟨by simp [yTrueEntry, hg], by simp [yTrueEntry, hg], ?_⟩
  have hpr : pr ∈ Metric.get_all_ids p g := by
    rw [Metric.get_all_ids, List.mem_dedup, List.mem_append]
    exact Or.inr (mem_labelKeys_of_lookup hg)
  have hcoll : collectSome (yPredEntry p) (Metric.get_all_ids p g)
      = none := by
    apply collectSome_eq_none hpr
    simp [yPredEntry, hp]
  simp only [Metric.get_discrete_labels, hcoll]

/-- Witness for the amended C6 at a concrete input. -/
theorem y_true_annotated_mode_independent_witness :
    yTrueEntry [(("a1", "k1"), (1 : Rat))] EvaluationMode.strict
        ("a1", "k1") = (if (1 : Rat) ≥ (0.5 : Rat) then 1 else 0)
    ∧ yTrueEntry [(("a1", "k1"), (1 : Rat))] EvaluationMode.strict
        ("a1", "k1")
      = yTrueEntry [(("a1", "k1"), (1 : Rat))] EvaluationMode.relaxed
        ("a1", "k1")
    ∧ Metric.get_discrete_labels [(("a1", "k2"), (0.9 : Rat))]
        [(("a1", "k1"), (1 : Rat))] EvaluationMode.strict = none :=
  y_true_annotated_mode_independent [(("a1", "k2"), (0.9 : Rat))]
    [(("a1", "k1"), (1 : Rat))] EvaluationMode.strict ("a1", "k1") 1
    rfl rfl

/-- C5: Cascade.load_model succeeds exactly when both sub-slug
subdirectories exist under the path and both sub-matcher loads on
those subdirectories succeed; any failure yields false. -/
theorem cascade_load_model_spec (c : Cascade) (pathExists : FsPath → Bool)
    (path : FsPath) :
    c.load_model pathExists path = true ↔
      (pathExists (path ++ [c.matcher_a.slug]) = true
        ∧ pathExists (path ++ [c.matcher_b.slug]) = true
        ∧ c.matcher_a.load_model (path ++ [c.matcher_a.slug]) = true
        ∧ c.matcher_b.load_model (path ++ [c.matcher_b.slug]) = true) := by
  cases hpa : pathExists (path ++ [c.matcher_a.slug]) <;>
    cases hpb : pathExists (path ++ [c.matcher_b.slug]) <;>
      simp [Cascade.load_model, hpa, hpb, Bool.and_eq_true]

/-- Membership in the eligible id pairs of a dataset: exactly the id
pairs of an argument and a key point sharing topic and stance. -/
theorem mem_eligiblePairs {d : Dataset} {pr : PairId} :
    pr ∈ eligiblePairs d ↔
      ∃ arg ∈ d.arguments, ∃ kp ∈ d.key_points,
        pr = (arg.id, kp.id) ∧ arg.topic = kp.topic
          ∧ arg.stance = kp.stance := by
  simp only [eligiblePairs, eligibleArgKpPairs, List.mem_map,
    List.mem_bind, List.mem_filter, Bool.and_eq_true, beq_iff_eq]
  constructor
  · rintro ⟨a, ⟨arg, harg, kp, ⟨hkp, ht, hs⟩, rfl⟩, hpr⟩
    exact ⟨arg, harg, kp, hkp, hpr.symm, ht, hs⟩
  · rintro ⟨arg, harg, kp, hkp, hpr, ht, hs⟩
    exact ⟨(arg, kp), ⟨arg, harg, kp, ⟨hkp, ht, hs⟩, rfl⟩, hpr.symm⟩

/-- Lookup into a dictionary keyed by a list of pairs with values
computed from the keys. -/
theorem lookupLabel_map_keyed {g : PairId → Rat} :
    ∀ {l : List PairId} {pr : PairId}, pr ∈ l →
      lookupLabel (l.map (fun q => (q, g q))) pr = some (g pr) := by
  intro l
  induction l with
  | nil => intro pr h; exact absurd h (List.not_mem_nil pr)
  | cons y rest ih =>
    intro pr hmem
    by_cases hy : y = pr
    · subst hy; simp [lookupLabel]
    · have hrest : pr ∈ rest := by
        rcases List.mem_cons.mp hmem with heq | h
        · exact absurd heq.symm hy
        · exact h
      simpa [lookupLabel, hy] using ih hrest

/-- C3: when both sub-matchers emit a label for every eligible pair,
Cascade.predict returns a mapping keyed by exactly the eligible
pairs of the dataset (argument and key point sharing topic and
stance, and no other pair), whose value at each pair is matcher A
label when that label is at least the threshold and matcher B label
for the pair otherwise. -/
theorem cascade_predict_spec (c : Cascade) (d : Dataset)
    (hA : ∀ pr ∈ eligiblePairs d,
      (lookupLabel (c.matcher_a.predict d) pr).isSome)
    (hB : ∀ pr ∈ eligiblePairs d,
      (lookupLabel (c.matcher_b.predict d) pr).isSome) :
    ∃ out, c.predict d = some out
      ∧ labelKeys out = eligiblePairs d
      ∧ (∀ pr, pr ∈ labelKeys out ↔
          ∃ arg ∈ d.arguments, ∃ kp ∈ d.key_points,
            pr = (arg.id, kp.id) ∧ arg.topic = kp.topic
              ∧ arg.stance = kp.stance)
      ∧ (∀ pr ∈ eligiblePairs d, ∀ a b,
          lookupLabel (c.matcher_a.predict d) pr = some a →
          lookupLabel (c.matcher_b.predict d) pr = some b →
          lookupLabel out pr
            = some (if a ≥ c.threshold then a else b)) := by
  refine ⟨(eligiblePairs d).map (fun pr =>
      (pr, if (lookupLabel (c.matcher_a.predict d) pr).getD 0
              ≥ c.threshold
           then (lookupLabel (c.matcher_a.predict d) pr).getD 0
           else (lookupLabel (c.matcher_b.predict d) pr).getD 0)),
    ?_, ?_, ?_, ?_⟩
  · simp only [Cascade.predict]
    apply collectSome_eq_map
    intro pr hpr
    obtain ⟨a, ha⟩ := Option.isSome_iff_exists.mp (hA pr hpr)
    obtain ⟨b, hb⟩ := Option.isSome_iff_exists.mp (hB pr hpr)
    by_cases hc : a ≥ c.threshold <;>
      simp [Cascade.combined_prediction, ha, hb, hc]
  · simp [labelKeys, List.map_map, Function.comp_def]
  · intro pr
    have hk : labelKeys ((eligiblePairs d).map (fun pr =>
        (pr, if (lookupLabel (c.matcher_a.predict d) pr).getD 0
                ≥ c.threshold
             then (lookupLabel (c.matcher_a.predict d) pr).getD 0
             else (lookupLabel (c.matcher_b.predict d) pr).getD 0)))
        = eligiblePairs d := by
      simp [labelKeys, List.map_map, Function.comp_def]
    rw [hk]
    exact mem_eligiblePairs
  · intro pr hpr a b ha hb
    rw [lookupLabel_map_keyed hpr, ha, hb]
    simp

/-- Witness for C3: a one-pair dataset with total sub-matchers. -/
theorem cascade_predict_spec_witness :
    ∃ out,
      Cascade.predict
        ⟨⟨"first", fun _ => true,
            fun _ => [(("arg1", "kp1"), (0.9 : Rat))]⟩,
          ⟨"second", fun _ => true,
            fun _ => [(("arg1", "kp1"), (0.1 : Rat))]⟩,
          (0.5 : Rat)⟩
        ⟨[⟨"arg1", "some text", "topic1", 1⟩],
          [⟨"kp1", "other text", "topic1", 1⟩]⟩ = some out := by
  obtain ⟨out, hout, -, -, -⟩ :=
    cascade_predict_spec
      ⟨⟨"first", fun _ => true,
          fun _ => [(("arg1", "kp1"), (0.9 : Rat))]⟩,
        ⟨"second", fun _ => true,
          fun _ => [(("arg1", "kp1"), (0.1 : Rat))]⟩,
        (0.5 : Rat)⟩
      ⟨[⟨"arg1", "some text", "topic1", 1⟩],
        [⟨"kp1", "other text", "topic1", 1⟩]⟩
      (by decide) (by decide)
  exact ⟨out, hout⟩

/-- C10: Cascade.combined_prediction looks matcher A labels up
before any threshold comparison, so an eligible pair missing from
matcher A predictions makes Cascade.predict fail with a
key-not-found error, whatever the threshold and matcher B output. -/
theorem cascade_predict_missing_a (c : Cascade) (d : Dataset)
    (pr : PairId) (hmem : pr ∈ eligiblePairs d)
    (hA : lookupLabel (c.matcher_a.predict d) pr = none) :
    c.predict d = none := by
  simp only [Cascade.predict]
  apply collectSome_eq_none hmem
  simp [Cascade.combined_prediction, hA]

/-- Witness for C10: matcher A omits the only eligible pair. -/
theorem cascade_predict_missing_a_witness :
    Cascade.predict
      ⟨⟨"first", fun _ => true, fun _ => []⟩,
        ⟨"second", fun _ => true,
          fun _ => [(("arg1", "kp1"), (0.7 : Rat))]⟩,
        (0.5 : Rat)⟩
      ⟨[⟨"arg1", "some text", "topic1", 1⟩],
        [⟨"kp1", "other text", "topic1", 1⟩]⟩ = none :=
  cascade_predict_missing_a _ _ ("arg1", "kp1") (by decide) rfl

/-- C7: the slug contract of containing only lowercase letters,
digits and dashes is violated by Cascade.slug: for the default
threshold 0.5 the f-string renders the float as 0.5, whose dot is
outside the slug alphabet, for any Python-conforming float
formatting. -/
theorem cascade_slug_not_slug_safe (floatRepr : Rat → String)
    (h : floatRepr (0.5 : Rat) = "0.5") :
    isSlugOk (Cascade.slug
      ⟨⟨"first", fun _ => true, fun _ => []⟩,
        ⟨"second", fun _ => true, fun _ => []⟩,
        (0.5 : Rat)⟩ floatRepr) = false := by
  simp only [Cascade.slug, h]
  decide

/-- Witness for C7 with an explicit formatting function agreeing
with Python float repr at 0.5. -/
theorem cascade_slug_not_slug_safe_witness :
    isSlugOk (Cascade.slug
      ⟨⟨"first", fun _ => true, fun _ => []⟩,
        ⟨"second", fun _ => true, fun _ => []⟩,
        (0.5 : Rat)⟩ (fun _ => "0.5")) = false :=
  cascade_slug_not_slug_safe (fun _ => "0.5") rfl

/-- C8: the UntrainedMatcher lifecycle methods are no-ops: load
succeeds for every path keeping the state, train and save keep the
state, and predicting after train equals predicting with no prior
train call, for every prediction function and dataset. -/
theorem untrained_matcher_noop {σ : Type} (predict : σ → Dataset → Labels)
    (s : σ) (path : FsPath) (train_data dev_data : LabelledDataset)
    (cache_path : FsPath) (data : Dataset) :
    (UntrainedMatcher.load_model s path).2 = true
    ∧ (UntrainedMatcher.load_model s path).1 = s
    ∧ UntrainedMatcher.train s train_data dev_data cache_path = s
    ∧ UntrainedMatcher.save_model s path = s
    ∧ predict (UntrainedMatcher.train s train_data dev_data cache_path)
        data = predict s data :=
  ⟨rfl, rfl, rfl, rfl, rfl⟩

/-- C9: in prepare_labelled_data, an eligible pair absent from the
labels dictionary is dropped from the pair list entirely under the
skip policy, contributes label 0 to every one of its text rows under
strict and label 1 under relaxed, while a pair present in the labels
dictionary stays in the pair list under every policy and contributes
its stored label; the labels column of prepare_labelled_data is the
per-pair row labels accumulated over the (policy-filtered) pairs. -/
theorem prepare_labelled_data_label_policy (d : LabelledDataset)
    (arg : Argument) (kp : KeyPoint) (n : Nat) :
    (lookupLabel d.labels (arg.id, kp.id) = none →
      (arg, kp) ∉ labelled_pairs d LabelPolicy.skip
      ∧ rowLabels d.labels LabelPolicy.strict arg kp n
          = List.replicate n 0
      ∧ rowLabels d.labels LabelPolicy.relaxed arg kp n
          = List.replicate n 1)
    ∧ (∀ v, lookupLabel d.labels (arg.id, kp.id) = some v →
        ∀ policy,
          ((arg, kp) ∈ eligibleArgKpPairs d.arguments d.key_points →
            (arg, kp) ∈ labelled_pairs d policy)
          ∧ rowLabels d.labels policy arg kp n = List.replicate n v)
    ∧ (∀ synonymAug augment policy,
        (prepare_labelled_data synonymAug d augment policy).2.2
          = (labelled_pairs d policy).bind (fun p =>
              rowLabels d.labels policy p.1 p.2
                (pairTextRows (mkAugmenter synonymAug augment)
                  p.1 p.2).length)) := by
  refine ⟨?_, ?_, ?_⟩
  · intro hnone
    refine ⟨?_, by simp [rowLabels, hnone], by simp [rowLabels, hnone]⟩
    simp [labelled_pairs, List.mem_filter, hnone]
  · intro v hv policy
    constructor
    · intro hmem
      cases policy <;> simp [labelled_pairs, List.mem_filter, hmem, hv]
    · simp [rowLabels, hv]
  · intro synonymAug augment policy
    rfl

/-- Witness for C9: one argument, two key points, only one pair
annotated (with label 0.75). -/
theorem prepare_labelled_data_label_policy_witness :
    ((⟨"a1", "text a", "T", 1⟩ : Argument),
        (⟨"k2", "text k2", "T", 1⟩ : KeyPoint)) ∉ labelled_pairs
      ⟨⟨[⟨"a1", "text a", "T", 1⟩],
          [⟨"k1", "text k1", "T", 1⟩, ⟨"k2", "text k2", "T", 1⟩]⟩,
        [(("a1", "k1"), (0.75 : Rat))]⟩ LabelPolicy.skip
    ∧ rowLabels [(("a1", "k1"), (0.75 : Rat))] LabelPolicy.strict
        ⟨"a1", "text a", "T", 1⟩ ⟨"k2", "text k2", "T", 1⟩ 1
        = List.replicate 1 0
    ∧ rowLabels [(("a1", "k1"), (0.75 : Rat))] LabelPolicy.skip
        ⟨"a1", "text a", "T", 1⟩ ⟨"k1", "text k1", "T", 1⟩ 1
        = List.replicate 1 0.75 := by
  have h := prepare_labelled_data_label_policy
    ⟨⟨[⟨"a1", "text a", "T", 1⟩],
        [⟨"k1", "text k1", "T", 1⟩, ⟨"k2", "text k2", "T", 1⟩]⟩,
      [(("a1", "k1"), (0.75 : Rat))]⟩
    ⟨"a1", "text a", "T", 1⟩ ⟨"k2", "text k2", "T", 1⟩ 1
  have h2 := prepare_labelled_data_label_policy
    ⟨⟨[⟨"a1", "text a", "T", 1⟩],
        [⟨"k1", "text k1", "T", 1⟩, ⟨"k2", "text k2", "T", 1⟩]⟩,
      [(("a1", "k1"), (0.75 : Rat))]⟩
    ⟨"a1", "text a", "T", 1⟩ ⟨"k1", "text k1", "T", 1⟩ 1
  exact ⟨(h.1 (by decide)).1, (h.1 (by decide)).2.1,
    (h2.2.1 0.75 rfl LabelPolicy.skip).2⟩
